import Mathlib

/-!
Verification of the retry/backoff wrapper of `tap_slack/client.py`.

The source is a thin wrapper around the Slack SDK: every exposed operation is
decorated with
`backoff.on_exception(backoff.constant, (SlackApiError, TimeoutError),
 max_tries=BACKOFF_MAX_TRIES, jitter=None, giveup=wait, interval=BACKOFF_INTERVAL)`.

We embed the observable behaviour of one decorated call: the sequence of sleep
durations performed, the number of attempts of the underlying remote operation,
the warning log entries emitted, and the final result (success payload or
propagated exception).

Semantics of the `backoff` library (its synchronous retry loop, stable across
the 1.x and 2.x releases) that the embedding follows:
  * on each failed attempt the `giveup` predicate is called first, even on the
    final attempt; if `giveup` raises, that exception propagates immediately;
  * if `giveup` returns falsy and the attempt count has reached `max_tries`,
    the current exception is re-raised;
  * otherwise the loop sleeps the wait-generator value (here the constant
    `interval`, with `jitter=None` meaning no jitter) and re-attempts;
  * exceptions not in the tuple of handled exception classes propagate
    without consulting `giveup`.

The repository uses the `wait` function (which itself sleeps) as the `giveup`
predicate, so its server-advised sleep happens in addition to, not instead of,
the constant-interval sleep of the library.
-/

set_option autoImplicit false

deriving instance DecidableEq for Except

namespace TapSlack

/-- Exceptions that appear in `client.py`.
`slackApiError dataError retryAfter` models a `SlackApiError` whose
`response.data` has the given optional "error" entry and whose
`response.headers` has the given optional "Retry-After" entry.
`timeoutError` models Python's `TimeoutError`; `valueError` models a
`ValueError` (raised by `int(...)` on an unparseable string or by
`time.sleep` on a negative duration). -/
inductive PyExn where
  | slackApiError (dataError : Option String) (retryAfter : Option String)
  | timeoutError
  | valueError (msg : String)
  deriving DecidableEq, Repr

/-- Numeric value of a list of decimal digits. -/
def digitsVal (cs : List Char) : Nat :=
  cs.foldl (fun a c => a * 10 + (c.toNat - 48)) 0

/-- The whitespace characters Python's `str.strip()` removes (ASCII part). -/
def isPySpace (c : Char) : Bool :=
  c = ' ' || c = '\t' || c = '\n' || c = '\r' || c = '\x0b' || c = '\x0c'

/-- Both-sided whitespace strip of a character list. -/
def stripWS (cs : List Char) : List Char :=
  ((cs.dropWhile isPySpace).reverse.dropWhile isPySpace).reverse

/-- Models Python's built-in `int(s)` on a decimal string: optional
surrounding whitespace, an optional single sign, then one or more ASCII
digits; any other string raises `ValueError` (here: `none`).
Digit-grouping underscores are not modelled. -/
def pyInt? (s : String) : Option Int :=
  let cs := stripWS s.data
  match cs with
  | [] => none
  | c :: rest =>
    let signed : Int × List Char :=
      if c = '-' then (-1, rest) else if c = '+' then (1, rest) else (1, cs)
    if signed.2 ≠ [] ∧ signed.2.all Char.isDigit then
      some (signed.1 * (digitsVal signed.2 : Int))
    else
      none

/-- `BACKOFF_INTERVAL = 15.0` of `client.py` (the float 15.0 is exactly 15). -/
def BACKOFF_INTERVAL : ℚ := 15

/-- `BACKOFF_MAX_TRIES = 4` of `client.py`. -/
def BACKOFF_MAX_TRIES : Nat := 4

/-- Outcome of a call to the `giveup` predicate: either it returned (always
`None`, i.e. falsy) having performed the given sleeps, or it raised. -/
inductive WaitResult where
  | ret (sleeps : List ℚ)
  | raised (e : PyExn)
  deriving DecidableEq, Repr

/-- `SlackClient.wait` of `client.py`:

  def wait(err=None):
      if isinstance(err, SlackApiError):
          if err.response.data.get("error", "") == "ratelimited":
              delay = int(err.response.headers.get("Retry-After", "0"))
          else:
              raise err
          time.sleep(delay)

For a `SlackApiError` whose error code is "ratelimited" it parses the
"Retry-After" header (defaulting the missing header to "0"; an unparseable
value makes `int` raise `ValueError`) and sleeps that long (`time.sleep`
raises `ValueError` on a negative duration); any other `SlackApiError` is
re-raised; every other argument falls through and the function returns
`None`. -/
def wait (err : PyExn) : WaitResult :=
  match err with
  | .slackApiError dataError retryAfter =>
    if dataError.getD "" = "ratelimited" then
      match pyInt? (retryAfter.getD "0") with
      | some delay =>
        if delay < 0 then .raised (.valueError "sleep length must be non-negative")
        else .ret [(delay : ℚ)]
      | none => .raised (.valueError "invalid literal for int with base 10")
    else .raised err
  | _ => .ret []

/-- Which exceptions the decorator's tuple `(SlackApiError, TimeoutError)`
catches; anything else propagates without consulting `giveup`. -/
def caughtByBackoff : PyExn → Bool
  | .slackApiError _ _ => true
  | .timeoutError => true
  | .valueError _ => false

/-- Result of one attempt of a decorated method's body: the body's result
(success payload or escaping exception) together with the warning log
entries the body emitted. -/
structure AttemptOutcome (α : Type) where
  result : Except PyExn α
  warnings : List String
  deriving DecidableEq, Repr

/-- Observable trace of one call of a decorated method: final result, the
sleep durations performed in order, how many attempts of the body ran, and
the warning log entries emitted. -/
structure Trace (α : Type) where
  result : Except PyExn α
  sleeps : List ℚ
  attempts : Nat
  warnings : List String
  deriving DecidableEq, Repr

/-- The synchronous retry loop of `backoff.on_exception` with
`backoff.constant`, `jitter=None`, `giveup=wait` and
`interval=BACKOFF_INTERVAL`, as applied in `client.py`. `op i` is the
outcome of the body's attempt number `i` (0-based); `remaining` is the
number of retries still allowed after the current attempt
(`BACKOFF_MAX_TRIES - (idx + 1)` at entry). -/
def retryAux {α : Type} (op : Nat → AttemptOutcome α) (idx : Nat) :
    Nat → Trace α
  | 0 =>
    let out := op idx
    match out.result with
    | .ok v => ⟨.ok v, [], 1, out.warnings⟩
    | .error e =>
      if caughtByBackoff e then
        match wait e with
        | .raised e' => ⟨.error e', [], 1, out.warnings⟩
        | .ret gs => ⟨.error e, gs, 1, out.warnings⟩
      else ⟨.error e, [], 1, out.warnings⟩
  | r + 1 =>
    let out := op idx
    match out.result with
    | .ok v => ⟨.ok v, [], 1, out.warnings⟩
    | .error e =>
      if caughtByBackoff e then
        match wait e with
        | .raised e' => ⟨.error e', [], 1, out.warnings⟩
        | .ret gs =>
          let rest := retryAux op (idx + 1) r
          ⟨rest.result, gs ++ BACKOFF_INTERVAL :: rest.sleeps,
           1 + rest.attempts, out.warnings ++ rest.warnings⟩
      else ⟨.error e, [], 1, out.warnings⟩

/-- One call of a method decorated as in `client.py`: up to
`BACKOFF_MAX_TRIES` total attempts. -/
def retryCall {α : Type} (op : Nat → AttemptOutcome α) : Trace α :=
  retryAux op 0 (BACKOFF_MAX_TRIES - 1)

/-- A Python value as far as the claims need it: strings, dicts, lists and
`None` (the shapes a `SlackResponse` payload exposes to `client.py`). -/
inductive PyVal where
  | str (s : String)
  | int (n : Int)
  | dict (entries : List (String × PyVal))
  | list (xs : List PyVal)
  | pyNone
  deriving Repr

/-- Lookup of a key in a dict's entry list (first match). -/
def lookupEntry (k : String) : List (String × PyVal) → Option PyVal
  | [] => none
  | (k', v) :: rest => if k' = k then some v else lookupEntry k rest

/-- Models `page.get(key)` of a dict-like response: the value stored under
the key, defaulting to `None` when the key is absent. -/
def PyVal.get (v : PyVal) (k : String) : PyVal :=
  match v with
  | .dict es => (lookupEntry k es).getD .pyNone
  | _ => .pyNone

/-- Body of the ten passthrough methods: the underlying call's outcome is
returned unchanged and no warning is logged. -/
def passthroughBody {α : Type} (call : Except PyExn α) : AttemptOutcome α :=
  ⟨call, []⟩

/-- Body of `get_channel`: on success of `conversations_info` it returns
`page.get("channel")`; an exception escapes to the decorator. -/
def get_channel_body (call : Except PyExn PyVal) : AttemptOutcome PyVal :=
  match call with
  | .ok page => ⟨.ok (page.get "channel"), []⟩
  | .error e => ⟨.error e, []⟩

/-- Body of `get_channel_members`: a `SlackApiError` whose error code is
"fetch_members_failed" is swallowed, one warning is logged, and the empty
member list is returned; any other `SlackApiError` is re-raised; a
non-`SlackApiError` exception escapes the `try` uncaught. -/
def get_channel_members_body (channel : String)
    (call : Except PyExn (List String)) : AttemptOutcome (List String) :=
  match call with
  | .ok ms => ⟨.ok ms, []⟩
  | .error err =>
    match err with
    | .slackApiError dataError retryAfter =>
      if dataError.getD "" = "fetch_members_failed" then
        ⟨.ok [], ["Failed to fetch members for channel: " ++ channel]⟩
      else ⟨.error (.slackApiError dataError retryAfter), []⟩
    | e => ⟨.error e, []⟩

/-- Body of `get_messages`: a `SlackApiError` whose error code is
"not_in_channel" is swallowed, one warning is logged, and `None` (here
`Option.none`) is returned; any other `SlackApiError` is re-raised; a
non-`SlackApiError` exception escapes the `try` uncaught. A successful
payload `m` is returned as-is (here `some m`). -/
def get_messages_body {α : Type} (channel : String)
    (call : Except PyExn α) : AttemptOutcome (Option α) :=
  match call with
  | .ok m => ⟨.ok (some m), []⟩
  | .error err =>
    match err with
    | .slackApiError dataError retryAfter =>
      if dataError.getD "" = "not_in_channel" then
        ⟨.ok none,
         ["Attempted to get messages for channel: " ++ channel ++
          " that slackbot is not in"]⟩
      else ⟨.error (.slackApiError dataError retryAfter), []⟩
    | e => ⟨.error e, []⟩

/-- `SlackClient.get_all_channels`: decorated passthrough of
`webclient.conversations_list`. The argument gives the outcome of the
underlying call at each attempt index. -/
def get_all_channels {α : Type} (conversations_list : Nat → Except PyExn α) :
    Trace α :=
  retryCall fun i => passthroughBody (conversations_list i)

/-- `SlackClient.get_channel`: decorated call of
`webclient.conversations_info`, returning `page.get("channel")`. -/
def get_channel (conversations_info : Nat → Except PyExn PyVal) :
    Trace PyVal :=
  retryCall fun i => get_channel_body (conversations_info i)

/-- `SlackClient.get_channel_members`: decorated call of
`webclient.conversations_members` with the "fetch_members_failed"
tolerance. -/
def get_channel_members (channel : String)
    (conversations_members : Nat → Except PyExn (List String)) :
    Trace (List String) :=
  retryCall fun i => get_channel_members_body channel (conversations_members i)

/-- `SlackClient.get_messages`: decorated call of
`webclient.conversations_history` with the "not_in_channel" tolerance. -/
def get_messages {α : Type} (channel : String)
    (conversations_history : Nat → Except PyExn α) : Trace (Option α) :=
  retryCall fun i => get_messages_body channel (conversations_history i)

/-- `SlackClient.get_thread`: decorated passthrough of
`webclient.conversations_replies`. -/
def get_thread {α : Type} (conversations_replies : Nat → Except PyExn α) :
    Trace α :=
  retryCall fun i => passthroughBody (conversations_replies i)

/-- `SlackClient.get_users`: decorated passthrough of
`webclient.users_list`. -/
def get_users {α : Type} (users_list : Nat → Except PyExn α) : Trace α :=
  retryCall fun i => passthroughBody (users_list i)

/-- `SlackClient.get_user_groups`: decorated passthrough of
`webclient.usergroups_list`. -/
def get_user_groups {α : Type} (usergroups_list : Nat → Except PyExn α) :
    Trace α :=
  retryCall fun i => passthroughBody (usergroups_list i)

/-- `SlackClient.get_teams`: decorated passthrough of
`webclient.team_info`. -/
def get_teams {α : Type} (team_info : Nat → Except PyExn α) : Trace α :=
  retryCall fun i => passthroughBody (team_info i)

/-- `SlackClient.get_files`: decorated passthrough of
`webclient.files_list`. -/
def get_files {α : Type} (files_list : Nat → Except PyExn α) : Trace α :=
  retryCall fun i => passthroughBody (files_list i)

/-- `SlackClient.get_remote_files`: decorated passthrough of
`webclient.files_remote_list`. -/
def get_remote_files {α : Type} (files_remote_list : Nat → Except PyExn α) :
    Trace α :=
  retryCall fun i => passthroughBody (files_remote_list i)

/-- `SlackClient.join_channel`: decorated passthrough of
`webclient.conversations_join`. -/
def join_channel {α : Type} (conversations_join : Nat → Except PyExn α) :
    Trace α :=
  retryCall fun i => passthroughBody (conversations_join i)

/-! ## Concrete scenarios used by counterexamples and witnesses -/

/-- Attempt 0 fails rate-limited with header value "5"; attempt 1 succeeds. -/
def rlThenOk : Nat → AttemptOutcome Nat := fun i =>
  if i = 0 then ⟨.error (.slackApiError (some "ratelimited") (some "5")), []⟩
  else ⟨.ok 42, []⟩

/-- Attempt 0 fails rate-limited with header value "7"; attempt 1 succeeds. -/
def rlThenOk7 : Nat → AttemptOutcome Nat := fun i =>
  if i = 0 then ⟨.error (.slackApiError (some "ratelimited") (some "7")), []⟩
  else ⟨.ok 1, []⟩

/-- Every attempt fails rate-limited with the unparseable header value
"five". -/
def rlBadHeader : Nat → AttemptOutcome Nat := fun _ =>
  ⟨.error (.slackApiError (some "ratelimited") (some "five")), []⟩

/-- Every attempt fails with the non-retryable error code "invalid_auth". -/
def invalidAuthOp : Nat → AttemptOutcome Nat := fun _ =>
  ⟨.error (.slackApiError (some "invalid_auth") none), []⟩

/-! ## Claims -/

/-- C1, counterexample: with a rate-limit failure carrying a parseable
Retry-After of 5 on attempt 0 and success on attempt 1, the call performs
TWO sleeps — the server-provided 5 seconds inside the classifier and then
the fixed 15-second interval of the backoff loop — not "exactly one sleep
of duration d": the server delay does not replace the fixed interval. -/
theorem rateLimit_then_success_not_single_sleep_cex :
    retryCall rlThenOk = ⟨.ok 42, [5, 15], 2, []⟩ ∧
    (retryCall rlThenOk).sleeps.length ≠ 1 := by
  constructor
  · rfl
  · decide

/-- C1, amended: if attempt 0 fails rate-limited with a Retry-After value
parsing to a nonnegative `d` and attempt 1 succeeds, the call sleeps the
server-provided `d` and then the fixed 15-second interval (the server delay
is performed in addition to, not instead of, the fixed interval), and
returns the second attempt's success result. -/
theorem rateLimit_then_success_sleeps_delay_then_interval {α : Type}
    (op : Nat → AttemptOutcome α) (s : String) (d : Int) (v : α)
    (w0 w1 : List String)
    (h0 : op 0 = ⟨.error (.slackApiError (some "ratelimited") (some s)), w0⟩)
    (hparse : pyInt? s = some d) (hd : 0 ≤ d)
    (h1 : op 1 = ⟨.ok v, w1⟩) :
    retryCall op = ⟨.ok v, [(d : ℚ), BACKOFF_INTERVAL], 2, w0 ++ w1⟩ := by
  simp [retryCall, retryAux, h0, h1, wait, caughtByBackoff, hparse,
        not_lt.mpr hd, BACKOFF_MAX_TRIES]

/-- C1, witness: the amended theorem applied to the concrete scenario
`rlThenOk`. -/
theorem rateLimit_then_success_sleeps_delay_then_interval_witness :
    retryCall rlThenOk = ⟨.ok 42, [((5 : Int) : ℚ), BACKOFF_INTERVAL], 2, [] ++ []⟩ :=
  rateLimit_then_success_sleeps_delay_then_interval rlThenOk "5" 5 42 [] []
    rfl (by decide) (by decide) rfl

/-- C2, counterexample: a rate-limit failure whose Retry-After header is
present but unparseable ("five") is NOT treated as a zero-duration wait:
the delay extraction raises a `ValueError`, which propagates immediately,
with no sleep and no retry (one attempt only). -/
theorem unparseable_retry_after_raises_cex :
    retryCall rlBadHeader =
      ⟨.error (.valueError "invalid literal for int with base 10"), [], 1, []⟩ ∧
    (retryCall rlBadHeader).attempts = 1 := by
  constructor
  · rfl
  · rfl

/-- C2, amended: a rate-limit failure with a MISSING Retry-After header is
treated as a zero-duration wait (the header defaults to "0", a sleep of 0
is performed, no exception, and the retry proceeds); a rate-limit failure
whose Retry-After value is present but unparseable instead makes the delay
extraction raise a `ValueError` that propagates immediately, aborting the
call after one attempt with no sleep. -/
theorem retry_after_missing_zero_unparseable_raises {α : Type}
    (op op' : Nat → AttemptOutcome α) (v : α) (w0 w1 u0 : List String)
    (s : String)
    (h0 : op 0 = ⟨.error (.slackApiError (some "ratelimited") none), w0⟩)
    (h1 : op 1 = ⟨.ok v, w1⟩)
    (g0 : op' 0 = ⟨.error (.slackApiError (some "ratelimited") (some s)), u0⟩)
    (gparse : pyInt? s = none) :
    retryCall op = ⟨.ok v, [0, BACKOFF_INTERVAL], 2, w0 ++ w1⟩ ∧
    retryCall op' =
      ⟨.error (.valueError "invalid literal for int with base 10"), [], 1, u0⟩ := by
  have hparse0 : pyInt? "0" = some 0 := by decide
  constructor
  · simp [retryCall, retryAux, h0, h1, wait, caughtByBackoff, hparse0,
          BACKOFF_MAX_TRIES]
  · simp [retryCall, retryAux, g0, wait, caughtByBackoff, gparse,
          BACKOFF_MAX_TRIES]

/-- C2, witness: the amended theorem applied to a concrete missing-header
scenario and the concrete unparseable-header scenario `rlBadHeader`. -/
theorem retry_after_missing_zero_unparseable_raises_witness :
    retryCall (fun i => if i = 0 then
        ⟨.error (.slackApiError (some "ratelimited") none), []⟩
      else ⟨.ok 9, []⟩) = ⟨.ok 9, [0, BACKOFF_INTERVAL], 2, [] ++ []⟩ ∧
    retryCall rlBadHeader =
      ⟨.error (.valueError "invalid literal for int with base 10"), [], 1, []⟩ :=
  retry_after_missing_zero_unparseable_raises
    (fun i => if i = 0 then
        ⟨.error (.slackApiError (some "ratelimited") none), []⟩
      else ⟨.ok 9, []⟩)
    rlBadHeader 9 [] [] [] "five" rfl rfl rfl (by decide)

/-- C3: an API failure whose error code is not "ratelimited" is re-raised
by the classifier and propagates to the caller unchanged, with zero sleeps
and only the one attempt consumed — for every wrapped operation body. -/
theorem non_retryable_api_error_propagates_immediately {α : Type}
    (op : Nat → AttemptOutcome α) (code ra : Option String) (w : List String)
    (h0 : op 0 = ⟨.error (.slackApiError code ra), w⟩)
    (hcode : code.getD "" ≠ "ratelimited") :
    retryCall op = ⟨.error (.slackApiError code ra), [], 1, w⟩ := by
  simp [retryCall, retryAux, h0, wait, caughtByBackoff, hcode,
        BACKOFF_MAX_TRIES]

/-- C3, witness: the theorem applied to the concrete scenario
`invalidAuthOp`. -/
theorem non_retryable_api_error_propagates_immediately_witness :
    retryCall invalidAuthOp =
      ⟨.error (.slackApiError (some "invalid_auth") none), [], 1, []⟩ :=
  non_retryable_api_error_propagates_immediately invalidAuthOp
    (some "invalid_auth") none [] rfl (by decide)

/-- Every attempt fails rate-limited with Retry-After "2". -/
def rlAlways : Nat → AttemptOutcome Nat := fun _ =>
  ⟨.error (.slackApiError (some "ratelimited") (some "2")), []⟩

/-- Attempt 0 times out; attempt 1 succeeds. -/
def timeoutThenOk : Nat → AttemptOutcome Nat := fun i =>
  if i = 0 then ⟨.error .timeoutError, []⟩ else ⟨.ok 3, []⟩

/-- Attempt `i` fails rate-limited with Retry-After `i + 1` (as a string). -/
def rlEscalating : Nat → AttemptOutcome Nat := fun i =>
  ⟨.error (.slackApiError (some "ratelimited")
      (some (["1", "2", "3", "4"].getD i "9"))), []⟩

/-- A concrete `conversations_info` page with a "channel" entry. -/
def chanInfoPage : PyVal :=
  .dict [("ok", .str "true"), ("channel", .str "C123")]

/-- An underlying `conversations_info` call that always succeeds with
`chanInfoPage`. -/
def chanInfoCall : Nat → Except PyExn PyVal := fun _ => .ok chanInfoPage

/-- C4: four consecutive rate-limit failures (with parseable nonnegative
Retry-After values) exhaust the retry budget of `BACKOFF_MAX_TRIES = 4`:
exactly four attempts of the body run, and the fourth failure propagates
unchanged to the caller. -/
theorem four_rate_limit_failures_exhaust_retries {α : Type}
    (op : Nat → AttemptOutcome α)
    (s0 s1 s2 s3 : String) (d0 d1 d2 d3 : Int)
    (w0 w1 w2 w3 : List String)
    (h0 : op 0 = ⟨.error (.slackApiError (some "ratelimited") (some s0)), w0⟩)
    (h1 : op 1 = ⟨.error (.slackApiError (some "ratelimited") (some s1)), w1⟩)
    (h2 : op 2 = ⟨.error (.slackApiError (some "ratelimited") (some s2)), w2⟩)
    (h3 : op 3 = ⟨.error (.slackApiError (some "ratelimited") (some s3)), w3⟩)
    (p0 : pyInt? s0 = some d0) (p1 : pyInt? s1 = some d1)
    (p2 : pyInt? s2 = some d2) (p3 : pyInt? s3 = some d3)
    (n0 : 0 ≤ d0) (n1 : 0 ≤ d1) (n2 : 0 ≤ d2) (n3 : 0 ≤ d3) :
    retryCall op =
      ⟨.error (.slackApiError (some "ratelimited") (some s3)),
       [(d0 : ℚ), BACKOFF_INTERVAL, (d1 : ℚ), BACKOFF_INTERVAL,
        (d2 : ℚ), BACKOFF_INTERVAL, (d3 : ℚ)],
       4, w0 ++ w1 ++ w2 ++ w3⟩ := by
  simp [retryCall, retryAux, h0, h1, h2, h3, wait, caughtByBackoff,
        p0, p1, p2, p3, not_lt.mpr n0, not_lt.mpr n1, not_lt.mpr n2,
        not_lt.mpr n3, BACKOFF_MAX_TRIES]

/-- C4, witness: the theorem applied to the concrete scenario `rlAlways`. -/
theorem four_rate_limit_failures_exhaust_retries_witness :
    retryCall rlAlways =
      ⟨.error (.slackApiError (some "ratelimited") (some "2")),
       [((2 : Int) : ℚ), BACKOFF_INTERVAL, ((2 : Int) : ℚ), BACKOFF_INTERVAL,
        ((2 : Int) : ℚ), BACKOFF_INTERVAL, ((2 : Int) : ℚ)],
       4, [] ++ [] ++ [] ++ []⟩ :=
  four_rate_limit_failures_exhaust_retries rlAlways "2" "2" "2" "2" 2 2 2 2
    [] [] [] [] rfl rfl rfl rfl (by decide) (by decide) (by decide) (by decide)
    (by decide) (by decide) (by decide) (by decide)

/-- C5, counterexample: `rlThenOk7` is a run whose only failure is a
rate-limit error — no timeout occurs anywhere — yet the retry performs the
fixed 15-second interval sleep of the backoff loop (after the 7-second
server delay). The fixed-interval retry wait is therefore not reachable
only for timeout failures. -/
theorem fixed_interval_sleep_on_rate_limit_cex :
    retryCall rlThenOk7 = ⟨.ok 1, [7, 15], 2, []⟩ ∧
    BACKOFF_INTERVAL ∈ (retryCall rlThenOk7).sleeps := by
  constructor
  · rfl
  · decide

/-- C5, amended: a plain timeout failure is retried after exactly one fixed
15.0-second wait (constant backoff, no jitter), and API errors other than
the rate-limit code are never retried (they propagate immediately from the
first attempt); the fixed-interval wait is however not exclusive to
timeouts, since rate-limit retries also perform it after the
server-provided delay. -/
theorem timeout_fixed_interval_retry_api_errors_not_retried {α : Type}
    (op op' : Nat → AttemptOutcome α) (v : α) (w0 w1 u : List String)
    (code ra : Option String)
    (h0 : op 0 = ⟨.error .timeoutError, w0⟩)
    (h1 : op 1 = ⟨.ok v, w1⟩)
    (g0 : op' 0 = ⟨.error (.slackApiError code ra), u⟩)
    (gcode : code.getD "" ≠ "ratelimited") :
    retryCall op = ⟨.ok v, [BACKOFF_INTERVAL], 2, w0 ++ w1⟩ ∧
    retryCall op' = ⟨.error (.slackApiError code ra), [], 1, u⟩ := by
  constructor
  · simp [retryCall, retryAux, h0, h1, wait, caughtByBackoff,
          BACKOFF_MAX_TRIES]
  · simp [retryCall, retryAux, g0, wait, caughtByBackoff, gcode,
          BACKOFF_MAX_TRIES]

/-- C5, witness: the amended theorem applied to the concrete scenarios
`timeoutThenOk` and `invalidAuthOp`. -/
theorem timeout_fixed_interval_retry_witness :
    retryCall timeoutThenOk = ⟨.ok 3, [BACKOFF_INTERVAL], 2, [] ++ []⟩ ∧
    retryCall invalidAuthOp =
      ⟨.error (.slackApiError (some "invalid_auth") none), [], 1, []⟩ :=
  timeout_fixed_interval_retry_api_errors_not_retried timeoutThenOk
    invalidAuthOp 3 [] [] [] (some "invalid_auth") none rfl rfl rfl (by decide)

/-- C6: when the underlying `conversations_members` call fails with error
code "fetch_members_failed", `get_channel_members` neither retries nor
propagates: it returns the empty member list as a success, with zero sleeps,
one attempt, and exactly one warning log entry. -/
theorem fetch_members_failed_tolerated (channel : String)
    (f : Nat → Except PyExn (List String)) (de ra : Option String)
    (hde : de.getD "" = "fetch_members_failed")
    (h0 : f 0 = .error (.slackApiError de ra)) :
    get_channel_members channel f =
      ⟨.ok [], [], 1, ["Failed to fetch members for channel: " ++ channel]⟩ := by
  simp [get_channel_members, get_channel_members_body, retryCall, retryAux,
        h0, hde, BACKOFF_MAX_TRIES]

/-- C6, witness: the theorem applied to channel "C42" with a failing
underlying call. -/
theorem fetch_members_failed_tolerated_witness :
    get_channel_members "C42"
      (fun _ => .error (.slackApiError (some "fetch_members_failed") none)) =
      ⟨.ok [], [], 1, ["Failed to fetch members for channel: " ++ "C42"]⟩ :=
  fetch_members_failed_tolerated "C42"
    (fun _ => .error (.slackApiError (some "fetch_members_failed") none))
    (some "fetch_members_failed") none (by decide) rfl

/-- C7: when the underlying `conversations_history` call fails with error
code "not_in_channel", `get_messages` neither retries nor propagates: it
returns `None` (the absent result) as a success, with zero sleeps, one
attempt, and exactly one warning log entry. -/
theorem not_in_channel_tolerated {α : Type} (channel : String)
    (f : Nat → Except PyExn α) (de ra : Option String)
    (hde : de.getD "" = "not_in_channel")
    (h0 : f 0 = .error (.slackApiError de ra)) :
    get_messages channel f =
      ⟨.ok none, [], 1,
       ["Attempted to get messages for channel: " ++ channel ++
        " that slackbot is not in"]⟩ := by
  simp [get_messages, get_messages_body, retryCall, retryAux, h0, hde,
        BACKOFF_MAX_TRIES]

/-- C7, witness: the theorem applied to channel "C7" with a failing
underlying call. -/
theorem not_in_channel_tolerated_witness :
    get_messages (α := Nat) "C7"
      (fun _ => .error (.slackApiError (some "not_in_channel") none)) =
      ⟨.ok none, [], 1,
       ["Attempted to get messages for channel: " ++ "C7" ++
        " that slackbot is not in"]⟩ :=
  not_in_channel_tolerated "C7"
    (fun _ => .error (.slackApiError (some "not_in_channel") none))
    (some "not_in_channel") none (by decide) rfl

/-- C8: when the body's first attempt succeeds, the call returns that
success immediately: zero sleeps, one attempt, and exactly the warnings of
that single body run — and every operation body of `client.py` emits no
warning on a successful underlying call, so every wrapped operation returns
a first-attempt success with zero sleeps and zero log entries. -/
theorem first_attempt_success_immediate {α : Type}
    (op : Nat → AttemptOutcome α) (v : α) (w : List String)
    (h0 : op 0 = ⟨.ok v, w⟩) (ch : String) (x : α) (ms : List String)
    (pv : PyVal) :
    retryCall op = ⟨.ok v, [], 1, w⟩ ∧
    (passthroughBody (Except.ok x)).warnings = [] ∧
    (get_channel_body (Except.ok pv)).warnings = [] ∧
    (get_channel_members_body ch (Except.ok ms)).warnings = [] ∧
    (get_messages_body ch (Except.ok x)).warnings = [] := by
  refine ⟨?_, rfl, rfl, rfl, rfl⟩
  simp [retryCall, retryAux, h0, BACKOFF_MAX_TRIES]

/-- C8, witness: the theorem applied to a body that succeeds at once. -/
theorem first_attempt_success_immediate_witness :
    retryCall (fun _ => (⟨.ok 5, []⟩ : AttemptOutcome Nat)) =
      ⟨.ok 5, [], 1, []⟩ ∧
    (passthroughBody (Except.ok 5)).warnings = [] ∧
    (get_channel_body (Except.ok PyVal.pyNone)).warnings = [] ∧
    (get_channel_members_body "C" (Except.ok [])).warnings = [] ∧
    (get_messages_body "C" (Except.ok 5)).warnings = [] :=
  first_attempt_success_immediate (fun _ => (⟨.ok 5, []⟩ : AttemptOutcome Nat))
    5 [] rfl "C" 5 [] PyVal.pyNone

/-- C9, counterexample: `get_channel` does not return the raw successful
result of `conversations_info`: on the page `chanInfoPage` it returns the
page's "channel" entry, which differs from the page itself. -/
theorem get_channel_extracts_channel_field_cex :
    get_channel chanInfoCall = ⟨.ok (.str "C123"), [], 1, []⟩ ∧
    PyVal.str "C123" ≠ chanInfoPage := by
  constructor
  · rfl
  · intro h
    cases h

/-- C9, amended: ten of the eleven operations return the underlying call's
raw successful result unmodified; `get_channel` instead returns the
"channel" entry extracted from the raw result (None when absent). -/
theorem operations_return_raw_result_except_get_channel {α : Type}
    (f : Nat → Except PyExn α) (v : α)
    (g : Nat → Except PyExn PyVal) (page : PyVal)
    (m : Nat → Except PyExn (List String)) (ms : List String)
    (ch : String)
    (hf : f 0 = .ok v) (hg : g 0 = .ok page) (hm : m 0 = .ok ms) :
    get_all_channels f = ⟨.ok v, [], 1, []⟩ ∧
    get_thread f = ⟨.ok v, [], 1, []⟩ ∧
    get_users f = ⟨.ok v, [], 1, []⟩ ∧
    get_user_groups f = ⟨.ok v, [], 1, []⟩ ∧
    get_teams f = ⟨.ok v, [], 1, []⟩ ∧
    get_files f = ⟨.ok v, [], 1, []⟩ ∧
    get_remote_files f = ⟨.ok v, [], 1, []⟩ ∧
    join_channel f = ⟨.ok v, [], 1, []⟩ ∧
    get_channel_members ch m = ⟨.ok ms, [], 1, []⟩ ∧
    get_messages ch f = ⟨.ok (some v), [], 1, []⟩ ∧
    get_channel g = ⟨.ok (page.get "channel"), [], 1, []⟩ := by
  refine ⟨?_, ?_, ?_, ?_, ?_, ?_, ?_, ?_, ?_, ?_, ?_⟩ <;>
    simp [get_all_channels, get_thread, get_users, get_user_groups,
          get_teams, get_files, get_remote_files, join_channel,
          get_channel_members, get_messages, get_channel, passthroughBody,
          get_channel_body, get_channel_members_body, get_messages_body,
          retryCall, retryAux, hf, hg, hm, BACKOFF_MAX_TRIES]

/-- C9, witness: the amended theorem applied to concrete successful calls. -/
theorem operations_return_raw_result_witness :
    get_all_channels (fun _ => (.ok 5 : Except PyExn Nat)) = ⟨.ok 5, [], 1, []⟩ ∧
    get_thread (fun _ => (.ok 5 : Except PyExn Nat)) = ⟨.ok 5, [], 1, []⟩ ∧
    get_users (fun _ => (.ok 5 : Except PyExn Nat)) = ⟨.ok 5, [], 1, []⟩ ∧
    get_user_groups (fun _ => (.ok 5 : Except PyExn Nat)) = ⟨.ok 5, [], 1, []⟩ ∧
    get_teams (fun _ => (.ok 5 : Except PyExn Nat)) = ⟨.ok 5, [], 1, []⟩ ∧
    get_files (fun _ => (.ok 5 : Except PyExn Nat)) = ⟨.ok 5, [], 1, []⟩ ∧
    get_remote_files (fun _ => (.ok 5 : Except PyExn Nat)) = ⟨.ok 5, [], 1, []⟩ ∧
    join_channel (fun _ => (.ok 5 : Except PyExn Nat)) = ⟨.ok 5, [], 1, []⟩ ∧
    get_channel_members "C1" (fun _ => .ok ["U1"]) = ⟨.ok ["U1"], [], 1, []⟩ ∧
    get_messages "C1" (fun _ => (.ok 5 : Except PyExn Nat)) =
      ⟨.ok (some 5), [], 1, []⟩ ∧
    get_channel chanInfoCall = ⟨.ok (chanInfoPage.get "channel"), [], 1, []⟩ :=
  operations_return_raw_result_except_get_channel
    (fun _ => (.ok 5 : Except PyExn Nat)) 5 chanInfoCall chanInfoPage
    (fun _ => .ok ["U1"]) ["U1"] "C1" rfl rfl rfl

/-- C10: the classifier (`giveup=wait`) also runs on the final failed
attempt: after the fourth consecutive rate-limited failure the call still
sleeps the server-advised delay once more — it is the last entry of the
sleep sequence — and only then propagates the fourth failure. -/
theorem final_rate_limit_failure_sleeps_before_raise {α : Type}
    (op : Nat → AttemptOutcome α)
    (s0 s1 s2 s3 : String) (d0 d1 d2 d3 : Int)
    (w0 w1 w2 w3 : List String)
    (h0 : op 0 = ⟨.error (.slackApiError (some "ratelimited") (some s0)), w0⟩)
    (h1 : op 1 = ⟨.error (.slackApiError (some "ratelimited") (some s1)), w1⟩)
    (h2 : op 2 = ⟨.error (.slackApiError (some "ratelimited") (some s2)), w2⟩)
    (h3 : op 3 = ⟨.error (.slackApiError (some "ratelimited") (some s3)), w3⟩)
    (p0 : pyInt? s0 = some d0) (p1 : pyInt? s1 = some d1)
    (p2 : pyInt? s2 = some d2) (p3 : pyInt? s3 = some d3)
    (n0 : 0 ≤ d0) (n1 : 0 ≤ d1) (n2 : 0 ≤ d2) (n3 : 0 ≤ d3) :
    (retryCall op).result =
      .error (.slackApiError (some "ratelimited") (some s3)) ∧
    (retryCall op).sleeps =
      [(d0 : ℚ), BACKOFF_INTERVAL, (d1 : ℚ), BACKOFF_INTERVAL,
       (d2 : ℚ), BACKOFF_INTERVAL, (d3 : ℚ)] ∧
    (retryCall op).sleeps.getLast? = some ((d3 : Int) : ℚ) := by
  refine ⟨?_, ?_, ?_⟩ <;>
    simp [retryCall, retryAux, h0, h1, h2, h3, wait, caughtByBackoff,
          p0, p1, p2, p3, not_lt.mpr n0, not_lt.mpr n1, not_lt.mpr n2,
          not_lt.mpr n3, BACKOFF_MAX_TRIES]

/-- C10, witness: the theorem applied to `rlEscalating`, a concrete
scenario that fails rate-limited on all four attempts with distinguishable
delays. -/
theorem final_rate_limit_failure_sleeps_before_raise_witness :
    (retryCall rlEscalating).result =
      .error (.slackApiError (some "ratelimited") (some "4")) ∧
    (retryCall rlEscalating).sleeps =
      [((1 : Int) : ℚ), BACKOFF_INTERVAL, ((2 : Int) : ℚ), BACKOFF_INTERVAL,
       ((3 : Int) : ℚ), BACKOFF_INTERVAL, ((4 : Int) : ℚ)] ∧
    (retryCall rlEscalating).sleeps.getLast? = some ((4 : Int) : ℚ) :=
  final_rate_limit_failure_sleeps_before_raise rlEscalating
    "1" "2" "3" "4" 1 2 3 4 [] [] [] []
    (by decide) (by decide) (by decide) (by decide)
    (by decide) (by decide) (by decide) (by decide)
    (by decide) (by decide) (by decide) (by decide)

end TapSlack
